import Mathlib

/-!
# Verification of the Shopping-Bot watcher pipeline

Shallow embedding of the worker-side check pipeline of the Shopping-Bot
repository:

* `apps/worker/src/services/throttle-manager.ts` — per-domain throttling and
  exponential backoff (`ThrottleEntry`, `recordSuccess`, `recordError`,
  `calculateDelay`);
* `apps/worker/src/services/watcher-processor.ts` — one end-to-end watcher
  check (`process`, `fetchPage`, `checkRules`, `checkPriceRule`,
  `checkSizeAvailability`, `updateWatcherError`);
* the adapter layer (`BaseAdapter.extractPrice`, `BaseAdapter.detectCurrency`,
  `GenericAdapter.extractPriceValue`).

Conventions of the embedding:

* JavaScript `number` values that the pipeline compares and combines (prices,
  delays, percentages) are modelled as `ℚ`; all concrete values occurring in
  the claims are exactly representable.
* TypeScript optional fields (`x?: T`) become `Option T`.  JavaScript
  truthiness on such a field is translated explicitly at each use site: a
  number is truthy iff present and nonzero, a boolean iff present and `true`,
  an object/array iff present.
* Database writes and Redis writes are modelled by returning the updated
  record; `Date.now()` / `new Date()` become an explicit `now : ℤ` argument.
* Alert message strings built with template literals are modelled by the
  structured type `AlertMessage` carrying the interpolated values; the
  surrounding alert payloads keep all other fields of the source objects.
-/

namespace ShoppingBot

/-! ## Throttle manager (`throttle-manager.ts`) -/

/-- Per-domain throttle state, `interface ThrottleEntry`. -/
structure ThrottleEntry where
  lastRequest : ℤ
  errorCount : ℕ
deriving DecidableEq, Repr

/-- The three numeric options of `ThrottleManager` with the defaults applied
by the constructor (`minDelayMs || 5000`, `maxDelayMs || 300000`,
`backoffMultiplier || 2`). -/
structure ThrottleConfig where
  minDelayMs : ℚ := 5000
  maxDelayMs : ℚ := 300000
  backoffMultiplier : ℚ := 2
deriving DecidableEq, Repr

/-- A `ThrottleManager` constructed with no options. -/
def defaultThrottleConfig : ThrottleConfig := {}

/-- `ThrottleManager.recordSuccess`: the domain's entry becomes
`{ lastRequest: Date.now(), errorCount: 0 }`. -/
def recordSuccess (now : ℤ) : ThrottleEntry :=
  { lastRequest := now, errorCount := 0 }

/-- `ThrottleManager.recordError`: reads the current entry (absent ⇒ error
count `0`, and `entry?.errorCount || 0` is `0` exactly when the stored count
is `0` or the entry is absent), then stores
`{ lastRequest: Date.now(), errorCount: Math.min(current + 1, 10) }`. -/
def recordError (entry : Option ThrottleEntry) (now : ℤ) : ThrottleEntry :=
  let currentErrorCount := (entry.map ThrottleEntry.errorCount).getD 0
  { lastRequest := now, errorCount := min (currentErrorCount + 1) 10 }

/-- `ThrottleManager.calculateDelay`: `minDelayMs` at zero errors, otherwise
`min (minDelayMs * backoffMultiplier ^ errorCount) maxDelayMs`. -/
def calculateDelay (cfg : ThrottleConfig) (errorCount : ℕ) : ℚ :=
  if errorCount = 0 then
    cfg.minDelayMs
  else
    min (cfg.minDelayMs * cfg.backoffMultiplier ^ errorCount) cfg.maxDelayMs

/-! ## Watcher data model (`watcher-processor.ts`, prisma schema) -/

/-- Watcher lifecycle status (`WatcherStatus` of the prisma client; the spec
lists `active | paused | error | disabled`). -/
inductive WatcherStatus where
  | ACTIVE
  | PAUSED
  | ERROR
  | DISABLED
deriving DecidableEq, Repr

/-- The `type` discriminator of `WatcherRules.priceThreshold`. -/
inductive PriceRuleType where
  | below
  | above
  | change
deriving DecidableEq, Repr

/-- `WatcherRules.priceThreshold`: a price rule with optional numeric
threshold `value` and optional `percentage`. -/
structure PriceThreshold where
  type : PriceRuleType
  value : Option ℚ := none
  percentage : Option ℚ := none
deriving DecidableEq, Repr

/-- `interface WatcherRules` of `watcher-processor.ts`. -/
structure WatcherRules where
  priceThreshold : Option PriceThreshold := none
  stockStatus : Option Bool := none
  sizeAvailability : Option (List String) := none
  customSelector : Option String := none
deriving DecidableEq, Repr

/-- `interface AdapterResult` of `base.adapter.ts`: the normalized product
snapshot produced by one parse. -/
structure AdapterResult where
  success : Bool
  url : String
  title : Option String := none
  price : Option ℚ := none
  currency : Option String := none
  inStock : Option Bool := none
  sizes : Option (List String) := none
  image : Option String := none
  error : Option String := none
deriving DecidableEq, Repr

/-- Alert type strings used by `checkRules` (`'PRICE_CHANGE'`,
`'BACK_IN_STOCK'`, `'SIZE_AVAILABLE'`). -/
inductive AlertType where
  | PRICE_CHANGE
  | BACK_IN_STOCK
  | SIZE_AVAILABLE
deriving DecidableEq, Repr

/-- The human message of an alert, modelled structurally: each constructor is
one of the template literals of `checkRules` / `checkPriceRule`, carrying the
values interpolated into the string. -/
inductive AlertMessage where
  /-- `Price dropped below ${rule.value}!` -/
  | priceDroppedBelow (value : ℚ)
  /-- `Price is now above ${rule.value}!` -/
  | priceNowAbove (value : ℚ)
  /-- `Price ${direction} by ${abs change toFixed 1}%!`
  (`dropped` is `change < 0`; carries the exact `|change|`). -/
  | priceChangedByPct (dropped : Bool) (absChange : ℚ)
  /-- `Price ${direction} from ${previousPrice} to ${currentPrice}` -/
  | priceChangedFromTo (previousPrice currentPrice : ℚ)
  /-- `Product is back in stock!` -/
  | backInStock
  /-- `Size ${size} is now available!` -/
  | sizeAvailable (size : String)
deriving DecidableEq, Repr

/-- The `currentValue` field of an alert payload: a number for price alerts,
a size label for size alerts. -/
inductive AlertValue where
  | num (v : ℚ)
  | str (s : String)
deriving DecidableEq, Repr

/-- The `data` object pushed with each alert in `checkRules`. -/
structure AlertData where
  productName : String
  productUrl : String
  previousValue : Option ℚ := none
  currentValue : Option AlertValue := none
  message : AlertMessage
deriving DecidableEq, Repr

/-- One element of the `alerts` array produced by `checkRules`. -/
structure Alert where
  type : AlertType
  data : AlertData
deriving DecidableEq, Repr

/-- The watcher row as far as `process` reads and writes it. -/
structure Watcher where
  status : WatcherStatus
  rules : WatcherRules
  url : String
  domain : String
  lastCheckAt : Option ℤ := none
  lastResult : Option AdapterResult := none
  lastAlertAt : Option ℤ := none
  errorCount : ℕ := 0
deriving DecidableEq, Repr

/-- `interface ProcessResult` (the `data` payload, which merely echoes the
parse result, is not modelled). -/
structure ProcessResult where
  success : Bool
  alerts : List Alert
  error : Option String := none
deriving DecidableEq, Repr

/-! ## Rule evaluation (`WatcherProcessor.checkRules` and helpers) -/

/-- JavaScript truthiness of an optional boolean field: truthy exactly when
present and `true`. -/
def optTrue (o : Option Bool) : Bool :=
  o = some true

/-- `WatcherProcessor.checkPriceRule`.  The guards `rule.value && …` and
`rule.percentage && …` are JavaScript truthiness tests on a number: they pass
exactly when the field is present and nonzero, so a threshold of `0` and an
absent threshold behave alike. -/
def checkPriceRule (rule : PriceThreshold) (currentPrice : ℚ)
    (previousPrice : Option ℚ) : Option AlertMessage :=
  match rule.type with
  | .below =>
    match rule.value with
    | some v => if v ≠ 0 ∧ currentPrice < v then some (.priceDroppedBelow v) else none
    | none => none
  | .above =>
    match rule.value with
    | some v => if v ≠ 0 ∧ currentPrice > v then some (.priceNowAbove v) else none
    | none => none
  | .change =>
    match previousPrice with
    | some prev =>
      if currentPrice ≠ prev then
        let change := (currentPrice - prev) / prev * 100
        match rule.percentage with
        | some pct =>
          if pct ≠ 0 ∧ pct ≤ |change| then
            some (.priceChangedByPct (change < 0) |change|)
          else if pct = 0 then
            some (.priceChangedFromTo prev currentPrice)
          else
            none
        | none => some (.priceChangedFromTo prev currentPrice)
      else none
    | none => none

/-- `WatcherProcessor.checkSizeAvailability`: the watched sizes present in
`currentSizes` and absent from `previousSizes` (absent previous list ⇒ `[]`),
in watched-list order. -/
def checkSizeAvailability (watchedSizes currentSizes : List String)
    (previousSizes : Option (List String)) : List String :=
  let previous := previousSizes.getD []
  watchedSizes.filter fun size =>
    currentSizes.contains size && !previous.contains size

/-- The `// Check price threshold` section of `WatcherProcessor.checkRules`.
The guard `rules.priceThreshold && current.price !== undefined` needs both
fields present. -/
def priceAlerts (rules : WatcherRules) (current : AdapterResult)
    (previous : Option AdapterResult) : List Alert :=
  match rules.priceThreshold, current.price with
  | some rule, some currentPrice =>
    match checkPriceRule rule currentPrice (previous.bind AdapterResult.price) with
    | some msg =>
      [{ type := .PRICE_CHANGE,
         data := { productName := current.title.getD "Unknown Product",
                   productUrl := current.url,
                   previousValue := previous.bind AdapterResult.price,
                   currentValue := some (.num currentPrice),
                   message := msg } }]
    | none => []
  | _, _ => []

/-- The `// Check stock status` section of `checkRules`.  The outer guard
`rules.stockStatus && current.inStock !== undefined` needs the rule flag to
be `true` and `inStock` present; the inner test `current.inStock && previous
&& !previous.inStock` is truthiness on `current.inStock` (must be `true`),
existence of `previous`, and falsiness of `previous.inStock` (absent or
`false`). -/
def stockAlerts (rules : WatcherRules) (current : AdapterResult)
    (previous : Option AdapterResult) : List Alert :=
  if optTrue rules.stockStatus ∧ current.inStock ≠ none then
    if optTrue current.inStock ∧ previous.isSome ∧
        ¬ optTrue (previous.bind AdapterResult.inStock) then
      [{ type := .BACK_IN_STOCK,
         data := { productName := current.title.getD "Unknown Product",
                   productUrl := current.url,
                   message := .backInStock } }]
    else []
  else []

/-- The `// Check size availability` section of `checkRules`.  The guard
`rules.sizeAvailability && current.sizes` needs both arrays present (an
array is truthy even when empty). -/
def sizeAlerts (rules : WatcherRules) (current : AdapterResult)
    (previous : Option AdapterResult) : List Alert :=
  match rules.sizeAvailability, current.sizes with
  | some watched, some currentSizes =>
    (checkSizeAvailability watched currentSizes
        (previous.bind AdapterResult.sizes)).map fun size =>
      { type := .SIZE_AVAILABLE,
        data := { productName := current.title.getD "Unknown Product",
                  productUrl := current.url,
                  currentValue := some (.str size),
                  message := .sizeAvailable size } }
  | _, _ => []

/-- `WatcherProcessor.checkRules`: evaluates the price, stock and size rule
sections in source order, concatenating the alerts each pushes onto the
shared `alerts` array. -/
def checkRules (rules : WatcherRules) (current : AdapterResult)
    (previous : Option AdapterResult) : List Alert :=
  priceAlerts rules current previous ++ stockAlerts rules current previous ++
    sizeAlerts rules current previous

/-! ## The per-check state machine (`WatcherProcessor.process`) -/

/-- Outcome of `WatcherProcessor.fetchPage`, collapsing
`{ success: boolean; html?: string; error?: string }`: `ok html` is a
successful fetch (`html = ""` is the 304 / unchanged case), `fail e` a fetch
failure. -/
inductive FetchResult where
  | ok (html : String)
  | fail (error : String)
deriving DecidableEq, Repr

/-- The status-dependent part of `WatcherProcessor.fetchPage`: a `304`
response becomes a success with empty html, any other non-2xx status
(`!response.ok`) becomes a failure `HTTP <status>`, and a 2xx response
returns the body. -/
def fetchPage (status : ℕ) (body : String) : FetchResult :=
  if status = 304 then
    .ok ""
  else if ¬ (200 ≤ status ∧ status ≤ 299) then
    .fail ("HTTP " ++ toString status)
  else
    .ok body

/-- `WatcherProcessor.updateWatcherError`: increments the watcher's error
count, stamps `lastCheckAt`, and flips the status to `ERROR` exactly when the
new count reaches `5` (`newErrorCount >= 5`); otherwise the status is left as
is. -/
def updateWatcherError (w : Watcher) (now : ℤ) : Watcher :=
  let newErrorCount := w.errorCount + 1
  { w with
      lastCheckAt := some now,
      errorCount := newErrorCount,
      status := if 5 ≤ newErrorCount then .ERROR else w.status }

/-- The combined result of one `process` call: the returned `ProcessResult`,
the watcher row after the database writes, and the domain's throttle entry
after the throttle-manager calls. -/
structure CheckOutcome where
  result : ProcessResult
  watcher : Watcher
  throttle : Option ThrottleEntry
deriving DecidableEq, Repr

/-- `WatcherProcessor.process` for a found watcher, with the network fetch
outcome and the adapter's `parse` supplied as parameters:

* non-`ACTIVE` watcher ⇒ rejected before any fetch or throttle update;
* fetch failure ⇒ `throttleManager.recordError` + `updateWatcherError`;
* empty html (304) ⇒ `throttleManager.recordSuccess`, success with no alerts
  and no watcher write;
* parse failure ⇒ `throttleManager.recordError` + `updateWatcherError`;
* parse success ⇒ `throttleManager.recordSuccess`, alerts from `checkRules`
  against `watcher.lastResult`, and the watcher updated with a fresh
  `lastCheckAt`, the new snapshot as `lastResult`, `errorCount := 0`, and
  `lastAlertAt` stamped only when at least one alert fired. -/
def process (w : Watcher) (throttle : Option ThrottleEntry) (now : ℤ)
    (fetchResult : FetchResult) (parse : String → AdapterResult) : CheckOutcome :=
  if w.status ≠ .ACTIVE then
    { result := { success := false, alerts := [], error := some "Watcher is not active" },
      watcher := w, throttle := throttle }
  else
    match fetchResult with
    | .fail e =>
      { result := { success := false, alerts := [], error := some e },
        watcher := updateWatcherError w now,
        throttle := some (recordError throttle now) }
    | .ok html =>
      if html = "" then
        { result := { success := true, alerts := [] },
          watcher := w,
          throttle := some (recordSuccess now) }
      else
        let parseResult := parse html
        if parseResult.success = false then
          { result := { success := false, alerts := [], error := parseResult.error },
            watcher := updateWatcherError w now,
            throttle := some (recordError throttle now) }
        else
          let alerts := checkRules w.rules parseResult w.lastResult
          { result := { success := true, alerts := alerts },
            watcher := { w with
              lastCheckAt := some now,
              lastResult := some parseResult,
              errorCount := 0,
              lastAlertAt := if 0 < alerts.length then some now else w.lastAlertAt },
            throttle := some (recordSuccess now) }

/-! ## Adapter price extraction (`base.adapter.ts`, `generic.adapter.ts`) -/

/-- The ASCII characters matched by the JavaScript `\s` class (the further
Unicode space code points it also matches do not occur in the price texts
considered here). -/
def isJsWhitespace (c : Char) : Bool :=
  c = ' ' || c = '\t' || c = '\n' || c = '\r' || c.toNat = 11 || c.toNat = 12

/-- Digit run → natural number, for decimal parsing. -/
def digitsToNat (l : List Char) : ℕ :=
  l.foldl (fun a c => a * 10 + (c.toNat - 48)) 0

/-- JavaScript `parseFloat` restricted to the strings fed to it here (runs of
digits, commas removed, with at most the leading `\d*\.?\d*` shape
meaningful): parses an optional integer part, an optional dot, and an
optional fraction, ignoring anything after; yields `none` (`NaN`) when no
digit is found before or right after the dot. -/
def parseFloatQ (l : List Char) : Option ℚ :=
  let intPart := l.takeWhile Char.isDigit
  let rest := l.drop intPart.length
  match rest with
  | '.' :: r =>
    let fracPart := r.takeWhile Char.isDigit
    if intPart.isEmpty && fracPart.isEmpty then none
    else
      -- the decimal `intPart.fracPart` has the exact value
      -- `(intPart * 10 ^ k + fracPart) / 10 ^ k` with `k` fraction digits,
      -- and the concatenated digit run reads off the numerator
      some (mkRat (digitsToNat (intPart ++ fracPart)) (10 ^ fracPart.length))
  | _ => if intPart.isEmpty then none else some (mkRat (digitsToNat intPart) 1)

/-- Whether `sub` occurs as a contiguous run inside `l` (JavaScript
`String.prototype.includes`). -/
def listInfixOf (sub : List Char) : List Char → Bool
  | [] => sub.isEmpty
  | c :: rest => sub.isPrefixOf (c :: rest) || listInfixOf sub rest

/-- `text.includes(sub)`. -/
def strIncludes (text sub : String) : Bool :=
  listInfixOf sub.toList text.toList

namespace BaseAdapter

/-- The first match of the regex `/[\d,]+\.?\d*/` starting at a given
position: a maximal run of digits and commas, then an optional dot followed
by a maximal digit run. -/
def takePriceToken (l : List Char) : List Char :=
  let run := l.takeWhile fun c => c.isDigit || c = ','
  let rest := l.drop run.length
  match rest with
  | '.' :: r => run ++ '.' :: r.takeWhile Char.isDigit
  | _ => run

/-- Scan for the first position where `/[\d,]+\.?\d*/` can match (the first
digit or comma) and return the match, or `none` (`null`). -/
def matchPriceToken : List Char → Option (List Char)
  | [] => none
  | c :: rest =>
    if c.isDigit || c = ',' then some (takePriceToken (c :: rest))
    else matchPriceToken rest

/-- `BaseAdapter.extractPrice(text)`: empty text ⇒ `undefined`; otherwise the
first `/[\d,]+\.?\d*/` match with its commas removed is fed to `parseFloat`,
and a `NaN` result yields `undefined`. -/
def extractPrice (text : String) : Option ℚ :=
  if text = "" then none
  else
    match matchPriceToken text.toList with
    | some m => parseFloatQ (m.filter fun c => c ≠ ',')
    | none => none

/-- `BaseAdapter.detectCurrency(text)`: first matching currency signal wins,
`USD` by default. -/
def detectCurrency (text : String) : String :=
  if strIncludes text "$" || strIncludes text "USD" then "USD"
  else if strIncludes text "€" || strIncludes text "EUR" then "EUR"
  else if strIncludes text "£" || strIncludes text "GBP" then "GBP"
  else if strIncludes text "DKK" || strIncludes text "kr" then "DKK"
  else if strIncludes text "SEK" then "SEK"
  else "USD"

end BaseAdapter

namespace GenericAdapter

/-- The first match of the regex `/(\d+\.?\d*)/` starting at a digit: a
maximal digit run, an optional dot, then a maximal digit run. -/
def takeNumberToken (l : List Char) : List Char :=
  let intPart := l.takeWhile Char.isDigit
  let rest := l.drop intPart.length
  match rest with
  | '.' :: r => intPart ++ '.' :: r.takeWhile Char.isDigit
  | _ => intPart

/-- Scan for the first digit and return the `/(\d+\.?\d*)/` match there. -/
def matchNumberToken : List Char → Option (List Char)
  | [] => none
  | c :: rest =>
    if c.isDigit then some (takeNumberToken (c :: rest))
    else matchNumberToken rest

/-- JavaScript `String.prototype.trim` on the cleaned character list (only
ordinary spaces can remain at this point). -/
def trimChars (l : List Char) : List Char :=
  ((l.dropWhile isJsWhitespace).reverse.dropWhile isJsWhitespace).reverse

/-- `GenericAdapter.extractPriceValue(text)`: strips whitespace
(`replace(/\s+/g, '')`), turns every comma into a dot (`replace(/,/g, '.')`),
turns every other non-digit non-dot character into a space
(`replace(/[^\d.]/g, ' ')`), trims, extracts the first `/(\d+\.?\d*)/` match
and keeps its `parseFloat` when it is a number greater than zero. -/
def extractPriceValue (text : String) : Option ℚ :=
  let cleaned := trimChars
    (((text.toList.filter fun c => !isJsWhitespace c).map fun c =>
        if c = ',' then '.' else c).map fun c =>
      if c.isDigit || c = '.' then c else ' ')
  match matchNumberToken cleaned with
  | some m =>
    match parseFloatQ m with
    | some price => if 0 < price then some price else none
    | none => none
  | none => none

end GenericAdapter

/-! ## Concrete fixtures used by witnesses and counterexamples -/

/-- A healthy active watcher with no rules and no errors. -/
def sampleWatcher : Watcher :=
  { status := .ACTIVE, rules := {}, url := "https://example.com/p",
    domain := "example.com" }

/-- An active watcher that has already accumulated three consecutive
failures. -/
def watcherWithErrors : Watcher :=
  { status := .ACTIVE, rules := {}, url := "https://example.com/p",
    domain := "example.com", errorCount := 3 }

/-- An adapter `parse` that ignores its input and returns a fixed result. -/
def parseConst (r : AdapterResult) : String → AdapterResult :=
  fun _ => r

/-- A successful parse result with no product facts. -/
def genericOkResult : AdapterResult :=
  { success := true, url := "https://example.com/p" }

/-- An unsuccessful parse result (the ParseError case). -/
def parseFailResult : AdapterResult :=
  { success := false, url := "https://example.com/p",
    error := some "Parse failed" }

/-! ## Helper lemmas: the five branches of `process` -/

theorem process_fetch_fail (w : Watcher) (th : Option ThrottleEntry) (now : ℤ)
    (e : String) (parse : String → AdapterResult) (hactive : w.status = .ACTIVE) :
    process w th now (.fail e) parse =
      { result := { success := false, alerts := [], error := some e },
        watcher := updateWatcherError w now,
        throttle := some (recordError th now) } := by
  unfold process
  rw [if_neg (fun h => h hactive)]

theorem process_unchanged (w : Watcher) (th : Option ThrottleEntry) (now : ℤ)
    (parse : String → AdapterResult) (hactive : w.status = .ACTIVE) :
    process w th now (.ok "") parse =
      { result := { success := true, alerts := [] },
        watcher := w,
        throttle := some (recordSuccess now) } := by
  unfold process
  rw [if_neg (fun h => h hactive)]
  rfl

theorem process_parse_fail (w : Watcher) (th : Option ThrottleEntry) (now : ℤ)
    (html : String) (parse : String → AdapterResult) (hactive : w.status = .ACTIVE)
    (hhtml : html ≠ "") (hfail : (parse html).success = false) :
    process w th now (.ok html) parse =
      { result := { success := false, alerts := [], error := (parse html).error },
        watcher := updateWatcherError w now,
        throttle := some (recordError th now) } := by
  unfold process
  rw [if_neg (fun h => h hactive)]
  show (if html = "" then _ else _) = _
  rw [if_neg hhtml]
  show (if (parse html).success = false then _ else _) = _
  rw [if_pos hfail]

theorem process_parse_ok (w : Watcher) (th : Option ThrottleEntry) (now : ℤ)
    (html : String) (parse : String → AdapterResult) (hactive : w.status = .ACTIVE)
    (hhtml : html ≠ "") (hok : (parse html).success = true) :
    process w th now (.ok html) parse =
      { result := { success := true,
                    alerts := checkRules w.rules (parse html) w.lastResult },
        watcher := { w with
          lastCheckAt := some now,
          lastResult := some (parse html),
          errorCount := 0,
          lastAlertAt :=
            if 0 < (checkRules w.rules (parse html) w.lastResult).length
            then some now else w.lastAlertAt },
        throttle := some (recordSuccess now) } := by
  unfold process
  rw [if_neg (fun h => h hactive)]
  show (if html = "" then _ else _) = _
  rw [if_neg hhtml]
  show (if (parse html).success = false then _ else _) = _
  rw [if_neg (by simp [hok])]

/-! ## C4: the backoff delay formula -/

/-- **C4** — with the default configuration (`baseDelay = 5000`,
`multiplier = 2`, `maxDelay = 300000`), the required throttle delay for every
error count `n` equals `baseDelay * multiplier ^ n` clamped to the interval
`[baseDelay, maxDelay]`; in particular zero errors give exactly `baseDelay`
and three errors give exactly `40000` ms. -/
theorem calculateDelay_clamp_defaults :
    (∀ n : ℕ, calculateDelay defaultThrottleConfig n =
      max defaultThrottleConfig.minDelayMs
        (min (defaultThrottleConfig.minDelayMs *
            defaultThrottleConfig.backoffMultiplier ^ n)
          defaultThrottleConfig.maxDelayMs)) ∧
    calculateDelay defaultThrottleConfig 0 = 5000 ∧
    calculateDelay defaultThrottleConfig 3 = 40000 := by
  refine ⟨fun n => ?_,
    by norm_num [calculateDelay, defaultThrottleConfig],
    by norm_num [calculateDelay, defaultThrottleConfig, min_def]⟩
  rcases n with - | m
  · norm_num [calculateDelay, defaultThrottleConfig, min_def, max_def]
  · have hstep : calculateDelay defaultThrottleConfig (m + 1) =
        min ((5000 : ℚ) * 2 ^ (m + 1)) 300000 := by
      simp [calculateDelay, defaultThrottleConfig]
    have hone : (1 : ℚ) ≤ 2 ^ (m + 1) := one_le_pow₀ one_le_two
    have hbase : (5000 : ℚ) ≤ 5000 * 2 ^ (m + 1) :=
      le_mul_of_one_le_right (by norm_num) hone
    have hmax : (5000 : ℚ) ≤ min ((5000 : ℚ) * 2 ^ (m + 1)) 300000 :=
      le_min hbase (by norm_num)
    show calculateDelay defaultThrottleConfig (m + 1) =
      max (5000 : ℚ) (min ((5000 : ℚ) * 2 ^ (m + 1)) 300000)
    rw [hstep, max_eq_right hmax]

/-! ## C7: monotonicity and boundedness of the backoff delay -/

/-- **C7** — for any throttle configuration with a nonnegative base delay no
larger than the maximum and a multiplier of at least one (which includes the
defaults the worker uses), the computed backoff delay is monotonically
non-decreasing in the consecutive error count and never exceeds
`maxDelayMs`. -/
theorem calculateDelay_monotone_bounded (cfg : ThrottleConfig)
    (h0 : 0 ≤ cfg.minDelayMs) (h1 : cfg.minDelayMs ≤ cfg.maxDelayMs)
    (h2 : 1 ≤ cfg.backoffMultiplier) :
    (∀ m n : ℕ, m ≤ n → calculateDelay cfg m ≤ calculateDelay cfg n) ∧
    (∀ n : ℕ, calculateDelay cfg n ≤ cfg.maxDelayMs) := by
  have hbase : ∀ n : ℕ,
      cfg.minDelayMs ≤ cfg.minDelayMs * cfg.backoffMultiplier ^ n :=
    fun n => le_mul_of_one_le_right h0 (one_le_pow₀ h2)
  constructor
  · intro m n hmn
    unfold calculateDelay
    split_ifs with hm hn hn
    · exact le_rfl
    · exact le_min (hbase n) h1
    · omega
    · exact min_le_min
        (mul_le_mul_of_nonneg_left (pow_le_pow_right₀ h2 hmn) h0) le_rfl
  · intro n
    unfold calculateDelay
    split_ifs with hn
    · exact h1
    · exact min_le_right _ _

/-- Witness for **C7** at the worker's default configuration. -/
theorem calculateDelay_monotone_bounded_witness :
    calculateDelay defaultThrottleConfig 1 ≤ calculateDelay defaultThrottleConfig 3 ∧
    calculateDelay defaultThrottleConfig 3 ≤ defaultThrottleConfig.maxDelayMs :=
  ⟨(calculateDelay_monotone_bounded defaultThrottleConfig
      (by norm_num [defaultThrottleConfig]) (by norm_num [defaultThrottleConfig])
      (by norm_num [defaultThrottleConfig])).1 1 3 (by norm_num),
   (calculateDelay_monotone_bounded defaultThrottleConfig
      (by norm_num [defaultThrottleConfig]) (by norm_num [defaultThrottleConfig])
      (by norm_num [defaultThrottleConfig])).2 3⟩

/-! ## C6: escalation to `error` status after five consecutive failures -/

/-- The watcher state after a sequence of consecutive failed checks, one
`updateWatcherError` write per failure (`ts` lists the check timestamps). -/
def failSeq (w : Watcher) (ts : List ℤ) : Watcher :=
  ts.foldl (fun wa t => updateWatcherError wa t) w

theorem failSeq_errorCount (ts : List ℤ) : ∀ w : Watcher,
    (failSeq w ts).errorCount = w.errorCount + ts.length := by
  induction ts with
  | nil => intro w; simp [failSeq]
  | cons t rest ih =>
    intro w
    have hstep : failSeq w (t :: rest) = failSeq (updateWatcherError w t) rest := rfl
    rw [hstep, ih]
    simp [updateWatcherError]
    omega

theorem failSeq_status (ts : List ℤ) : ∀ w : Watcher,
    (failSeq w ts).status =
      if ts.length ≠ 0 ∧ 5 ≤ w.errorCount + ts.length then .ERROR
      else w.status := by
  induction ts with
  | nil => intro w; simp [failSeq]
  | cons t rest ih =>
    intro w
    have hstep : failSeq w (t :: rest) = failSeq (updateWatcherError w t) rest := rfl
    rw [hstep, ih]
    simp only [updateWatcherError, List.length_cons]
    split_ifs <;> first | rfl | omega

/-- **C6** — starting from an active watcher with `errorCount = 0`: any run
of at most four consecutive failed checks leaves the status `ACTIVE` (with
`errorCount` equal to the number of failures), and a run of exactly five
consecutive failed checks — and so no earlier point — flips the status to
`ERROR`. -/
theorem watcher_status_error_after_five_failures (w : Watcher) (ts : List ℤ)
    (hactive : w.status = .ACTIVE) (hzero : w.errorCount = 0) :
    (ts.length ≤ 4 → (failSeq w ts).status = .ACTIVE ∧
      (failSeq w ts).errorCount = ts.length) ∧
    (ts.length = 5 → (failSeq w ts).status = .ERROR ∧
      (failSeq w ts).errorCount = 5) := by
  constructor
  · intro hlen
    refine ⟨?_, by rw [failSeq_errorCount]; omega⟩
    rw [failSeq_status, if_neg (by omega)]
    exact hactive
  · intro hlen
    refine ⟨?_, by rw [failSeq_errorCount]; omega⟩
    rw [failSeq_status, if_pos (by omega)]

/-- Witness for **C6**: four failures keep the sample watcher active, a fifth
flips it to `ERROR`. -/
theorem watcher_status_error_after_five_failures_witness :
    ((failSeq sampleWatcher [1, 2, 3, 4]).status = .ACTIVE ∧
      (failSeq sampleWatcher [1, 2, 3, 4]).errorCount = 4) ∧
    ((failSeq sampleWatcher [1, 2, 3, 4, 5]).status = .ERROR ∧
      (failSeq sampleWatcher [1, 2, 3, 4, 5]).errorCount = 5) :=
  ⟨(watcher_status_error_after_five_failures sampleWatcher [1, 2, 3, 4]
      rfl rfl).1 (by decide),
   (watcher_status_error_after_five_failures sampleWatcher [1, 2, 3, 4, 5]
      rfl rfl).2 (by decide)⟩

/-! ## C1: a parse error and the domain's throttle state -/

/-- **C1** (counterexample) — a check in which the page is fetched
successfully but the adapter's parse fails: the domain's throttle entry,
previously `{lastRequest := 0, errorCount := 0}`, is replaced by
`{lastRequest := 7, errorCount := 1}`, so the throttle backoff state is *not*
left unchanged and `ThrottleManager.recordError` *is* invoked for the
domain. -/
theorem parse_error_throttle_changed_counterexample :
    (process sampleWatcher (some { lastRequest := 0, errorCount := 0 }) 7
        (.ok "<html></html>") (parseConst parseFailResult)).throttle =
      some { lastRequest := 7, errorCount := 1 } ∧
    (some { lastRequest := 7, errorCount := 1 } : Option ThrottleEntry) ≠
      some { lastRequest := 0, errorCount := 0 } := by
  decide

/-- **C1** (amended) — on every watcher check in which the page is fetched
successfully but the adapter's parse returns an unsuccessful result, the
watcher's own error counter is incremented *and* `ThrottleManager.recordError`
is invoked for the domain: the throttle entry is rewritten with its error
count incremented (capped at 10), exactly as for a fetch failure. -/
theorem parse_error_records_throttle_error (w : Watcher)
    (th : Option ThrottleEntry) (now : ℤ) (html : String)
    (parse : String → AdapterResult) (hactive : w.status = .ACTIVE)
    (hhtml : html ≠ "") (hfail : (parse html).success = false) :
    process w th now (.ok html) parse =
      { result := { success := false, alerts := [], error := (parse html).error },
        watcher := updateWatcherError w now,
        throttle := some (recordError th now) } ∧
    (updateWatcherError w now).errorCount = w.errorCount + 1 ∧
    (recordError th now).errorCount =
      min ((th.map ThrottleEntry.errorCount).getD 0 + 1) 10 := by
  exact ⟨process_parse_fail w th now html parse hactive hhtml hfail, rfl, rfl⟩

/-- Witness for the amended **C1** at a concrete failing parse. -/
theorem parse_error_records_throttle_error_witness :
    process sampleWatcher (some { lastRequest := 0, errorCount := 0 }) 7
        (.ok "<html></html>") (parseConst parseFailResult) =
      { result := { success := false, alerts := [],
                    error := some "Parse failed" },
        watcher := updateWatcherError sampleWatcher 7,
        throttle := some (recordError
          (some { lastRequest := 0, errorCount := 0 }) 7) } ∧
    (updateWatcherError sampleWatcher 7).errorCount = 1 ∧
    (recordError (some { lastRequest := 0, errorCount := 0 }) 7).errorCount =
      1 :=
  ⟨(parse_error_records_throttle_error sampleWatcher
      (some { lastRequest := 0, errorCount := 0 }) 7 "<html></html>"
      (parseConst parseFailResult) rfl (by decide) rfl).1,
   (parse_error_records_throttle_error sampleWatcher
      (some { lastRequest := 0, errorCount := 0 }) 7 "<html></html>"
      (parseConst parseFailResult) rfl (by decide) rfl).2.1,
   by decide⟩

/-! ## C3: which checks reset the error counters -/

/-- **C3** (counterexample) — a check that ends with an `unchanged`/304 fetch
result completes successfully, yet the watcher's persisted `errorCount`
(here `3`) is *not* reset to zero: the 304 branch returns before the watcher
row is written. -/
theorem unchanged_check_keeps_watcher_errorCount :
    (process watcherWithErrors none 0 (.ok "")
        (parseConst genericOkResult)).result.success = true ∧
    (process watcherWithErrors none 0 (.ok "")
        (parseConst genericOkResult)).watcher.errorCount = 3 ∧
    (process watcherWithErrors none 0 (.ok "")
        (parseConst genericOkResult)).watcher.errorCount ≠ 0 := by
  decide

/-- **C3** (amended) — a fully parsed successful check resets both the
domain's throttle error count and the watcher's persisted `errorCount` to
zero; a check that ends with an `unchanged`/304 fetch result resets the
domain's throttle error count to zero but leaves the watcher row — its
`errorCount` included — entirely unchanged. -/
theorem successful_check_resets_error_counts (w : Watcher)
    (th : Option ThrottleEntry) (now : ℤ) (html : String)
    (parse : String → AdapterResult) (hactive : w.status = .ACTIVE) :
    (html ≠ "" → (parse html).success = true →
      (process w th now (.ok html) parse).watcher.errorCount = 0 ∧
      (process w th now (.ok html) parse).throttle = some (recordSuccess now) ∧
      (recordSuccess now).errorCount = 0) ∧
    ((process w th now (.ok "") parse).throttle = some (recordSuccess now) ∧
      (process w th now (.ok "") parse).watcher = w) := by
  constructor
  · intro hhtml hok
    rw [process_parse_ok w th now html parse hactive hhtml hok]
    exact ⟨rfl, rfl, rfl⟩
  · rw [process_unchanged w th now parse hactive]
    exact ⟨rfl, rfl⟩

/-- Witness for the amended **C3**: a parsed success resets the error
counters of a watcher that had three consecutive failures, and an unchanged
check resets the domain's but not the watcher's. -/
theorem successful_check_resets_error_counts_witness :
    ((process watcherWithErrors none 4 (.ok "<html></html>")
        (parseConst genericOkResult)).watcher.errorCount = 0 ∧
      (process watcherWithErrors none 4 (.ok "<html></html>")
        (parseConst genericOkResult)).throttle = some (recordSuccess 4) ∧
      (recordSuccess 4).errorCount = 0) ∧
    ((process watcherWithErrors none 4 (.ok "")
        (parseConst genericOkResult)).throttle = some (recordSuccess 4) ∧
      (process watcherWithErrors none 4 (.ok "")
        (parseConst genericOkResult)).watcher = watcherWithErrors) :=
  ⟨(successful_check_resets_error_counts watcherWithErrors none 4
      "<html></html>" (parseConst genericOkResult) rfl).1 (by decide) rfl,
   (successful_check_resets_error_counts watcherWithErrors none 4
      "<html></html>" (parseConst genericOkResult) rfl).2⟩

/-! ## C5: frame property of an `unchanged` (304) check -/

/-- **C5** — a 304 response surfaces as a successful fetch with empty body,
and a check on it completes as a success with zero alerts while the watcher
row — stored previous snapshot, `lastCheckAt` and every other field — is left
exactly as it was; only the domain's throttle entry is rewritten (to a
success record), so the next real fetch still compares against the old
snapshot. -/
theorem unchanged_check_frame (w : Watcher) (th : Option ThrottleEntry)
    (now : ℤ) (body : String) (parse : String → AdapterResult)
    (hactive : w.status = .ACTIVE) :
    fetchPage 304 body = .ok "" ∧
    process w th now (.ok "") parse =
      { result := { success := true, alerts := [] },
        watcher := w,
        throttle := some (recordSuccess now) } := by
  exact ⟨rfl, process_unchanged w th now parse hactive⟩

/-- Witness for **C5** at a concrete active watcher. -/
theorem unchanged_check_frame_witness :
    fetchPage 304 "<html>cached</html>" = .ok "" ∧
    process watcherWithErrors none 9 (.ok "")
        (parseConst genericOkResult) =
      { result := { success := true, alerts := [] },
        watcher := watcherWithErrors,
        throttle := some (recordSuccess 9) } :=
  unchanged_check_frame watcherWithErrors none 9 "<html>cached</html>"
    (parseConst genericOkResult) rfl

/-! ## C2: the stock rule on an unknown previous stock status -/

/-- A rule set with only the stock rule enabled. -/
def stockOnlyRules : WatcherRules := { stockStatus := some true }

/-- A previous snapshot whose `inStock` is unknown (`undefined`). -/
def snapshotUnknownStock : AdapterResult :=
  { success := true, url := "https://example.com/p" }

/-- A previous snapshot that is explicitly out of stock. -/
def snapshotOutOfStock : AdapterResult :=
  { success := true, url := "https://example.com/p", inStock := some false }

/-- A current snapshot that is in stock (and carries no price). -/
def snapshotInStock : AdapterResult :=
  { success := true, url := "https://example.com/p", inStock := some true }

/-- The back-in-stock alert `checkRules` pushes for the snapshots above. -/
def backInStockAlert : Alert :=
  { type := .BACK_IN_STOCK,
    data := { productName := "Unknown Product",
              productUrl := "https://example.com/p",
              message := .backInStock } }

/-- **C2** (code bug) — with the stock rule enabled, a previous snapshot
whose `inStock` is unknown (`undefined`) and a current snapshot with
`inStock = true`, rule evaluation *does* emit a back-in-stock alert: the test
`!previous.inStock` treats an unknown previous stock status like `false`, so
the transition unknown → true fires even though only false → true should.
The first-ever check (no previous snapshot at all) indeed never fires. -/
theorem stock_rule_fires_on_unknown_to_true :
    checkRules stockOnlyRules snapshotInStock (some snapshotUnknownStock) =
      [backInStockAlert] ∧
    checkRules stockOnlyRules snapshotInStock (some snapshotOutOfStock) =
      [backInStockAlert] ∧
    checkRules stockOnlyRules snapshotInStock none = [] := by
  decide

/-! ## C8: semantics of the `below` price rule -/

/-- **C8** (counterexample) — a below-price rule whose threshold value is `0`
never fires, even on a current price strictly below the threshold: the guard
`rule.value && …` is a JavaScript truthiness test, and `0` is falsy.  Here
the current price `-1` satisfies `-1 < 0`, yet `checkPriceRule` returns no
alert. -/
theorem below_rule_zero_threshold_counterexample :
    checkPriceRule { type := .below, value := some 0 } (-1) none = none ∧
    ((-1 : ℚ) < 0) := by
  exact ⟨rfl, by norm_num⟩

/-- The rule set of the concrete scenario: `priceThreshold = {below: 100}`. -/
def belowHundredRules : WatcherRules :=
  { priceThreshold := some { type := .below, value := some 100 } }

/-- The scenario's current snapshot: price `89.99`. -/
def snapshotPrice8999 : AdapterResult :=
  { success := true, url := "https://example.com/p",
    title := some "Test Product", price := some 89.99 }

/-- The scenario's previous snapshot: price `150`. -/
def snapshotPrice150 : AdapterResult :=
  { success := true, url := "https://example.com/p",
    title := some "Test Product", price := some 150 }

/-- **C8** (amended) — for every below-price rule with a *nonzero* threshold
value `v`, the rule fires exactly when the current price is strictly below
`v`, independently of the previous snapshot's price; and in the concrete case
`v = 100`, previous price `150`, current price `89.99`, rule evaluation emits
exactly one price-change alert whose payload has `previousValue = 150` and
`currentValue = 89.99`. -/
theorem below_rule_semantics :
    (∀ (v : ℚ), v ≠ 0 → ∀ (pct : Option ℚ) (p : ℚ) (prev : Option ℚ),
      (checkPriceRule { type := .below, value := some v, percentage := pct }
        p prev).isSome = true ↔ p < v) ∧
    checkRules belowHundredRules snapshotPrice8999 (some snapshotPrice150) =
      [{ type := .PRICE_CHANGE,
         data := { productName := "Test Product",
                   productUrl := "https://example.com/p",
                   previousValue := some 150,
                   currentValue := some (.num 89.99),
                   message := .priceDroppedBelow 100 } }] := by
  constructor
  · intro v hv pct p prev
    simp only [checkPriceRule]
    split_ifs with h
    · simp only [Option.isSome_some, true_iff]
      exact h.2
    · simp only [Option.isSome_none, Bool.false_eq_true, false_iff]
      exact fun hpv => h ⟨hv, hpv⟩
  · norm_num [checkRules, priceAlerts, stockAlerts, sizeAlerts, checkPriceRule,
      belowHundredRules, snapshotPrice8999, snapshotPrice150, optTrue]

/-- Witness for the amended **C8**: the nonzero-threshold equivalence applied
at `v = 100`, current price `89.99`. -/
theorem below_rule_semantics_witness :
    (checkPriceRule { type := .below, value := some 100, percentage := none }
      89.99 (some 150)).isSome = true :=
  (below_rule_semantics.1 100 (by norm_num) none 89.99
    (some 150)).mpr (by norm_num)

/-! ## C9: price texts with thousands separators -/

/-- **C9** (code bug) — on the price text `"$1,299.99"` the fallback
(generic) adapter's price extraction `extractPriceValue` yields `1.299`, not
`1299.99`: its `replace(/,/g, '.')` turns the thousands separator into a
decimal point and the leading `/(\d+\.?\d*)/` match stops at the second dot.
The inherited `BaseAdapter.extractPrice` helper (which the generic price path
does not use) would return `1299.99`, and the currency is detected as
`USD`. -/
theorem thousands_separator_price_extraction :
    GenericAdapter.extractPriceValue "$1,299.99" = some (mkRat 1299 1000) ∧
    (mkRat 1299 1000 : ℚ) = 1.299 ∧
    (mkRat 1299 1000 : ℚ) ≠ 1299.99 ∧
    BaseAdapter.extractPrice "$1,299.99" = some (mkRat 129999 100) ∧
    (mkRat 129999 100 : ℚ) = 1299.99 ∧
    BaseAdapter.detectCurrency "$1,299.99" = "USD" := by
  have hC : (0 : ℚ) < mkRat 1299 1000 := by
    norm_num [Rat.mkRat_eq_div]
  refine ⟨?_, by norm_num [Rat.mkRat_eq_div], by norm_num [Rat.mkRat_eq_div],
    by decide, by norm_num [Rat.mkRat_eq_div], by decide⟩
  show (if (0 : ℚ) < mkRat 1299 1000 then some (mkRat 1299 1000) else none) =
    some (mkRat 1299 1000)
  rw [if_pos hC]

/-! ## C10: no price alert without a current price -/

/-- **C10** — whatever the rule set and the previous snapshot, if the current
snapshot has no price (`undefined`), rule evaluation emits no price-change
alert of any kind. -/
theorem no_price_alert_without_current_price (rules : WatcherRules)
    (current : AdapterResult) (previous : Option AdapterResult)
    (hprice : current.price = none) :
    ∀ a ∈ checkRules rules current previous, a.type ≠ .PRICE_CHANGE := by
  have hpa : priceAlerts rules current previous = [] := by
    unfold priceAlerts
    rw [hprice]
    rcases rules.priceThreshold with - | rule <;> rfl
  have hstock : ∀ a ∈ stockAlerts rules current previous,
      a.type = .BACK_IN_STOCK := by
    intro a ha
    unfold stockAlerts at ha
    split_ifs at ha <;> simp_all
  have hsize : ∀ a ∈ sizeAlerts rules current previous,
      a.type = .SIZE_AVAILABLE := by
    intro a ha
    unfold sizeAlerts at ha
    rcases hsa : rules.sizeAvailability with - | watched <;>
        rcases hcs : current.sizes with - | cur <;>
        rw [hsa, hcs] at ha <;>
        simp only [List.mem_map, List.not_mem_nil] at ha
    rcases ha with ⟨s, -, hs⟩
    rw [← hs]
  intro a ha
  rw [checkRules, hpa, List.nil_append, List.mem_append] at ha
  rcases ha with h | h
  · rw [hstock a h]
    decide
  · rw [hsize a h]
    decide

/-- A rule set with both a below-price rule and the stock rule enabled. -/
def mixedRules : WatcherRules :=
  { priceThreshold := some { type := .below, value := some 100 },
    stockStatus := some true }

/-- Witness for **C10**: with a below-price rule configured but a current
snapshot carrying no price, the check's only alert is the back-in-stock
alert, which is not a price alert. -/
theorem no_price_alert_without_current_price_witness :
    backInStockAlert.type ≠ AlertType.PRICE_CHANGE :=
  no_price_alert_without_current_price mixedRules snapshotInStock
    (some snapshotOutOfStock) rfl backInStockAlert (by decide)

end ShoppingBot
